import Mathlib

/-!
Verification of the loan-data ETL pipeline (`etl_pipeline.py`).

The development shallowly embeds the dataframe operations used by the
pipeline.  A dataframe is an ordered list of column names together with a
list of rows; each row is a list of cells aligned with the column list.
Cells are strings, numbers, dates, or the missing marker `Value.na`
(pandas `NaN`).  The functions `create_star_schema`, `dropna` (the row
completeness filter of `main`, step 5) and `deploy_to_database` are
translated from the source; theorems below settle the specification
claims about them.
-/

/-- Calendar date, as carried by a pandas datetime cell. -/
structure Date where
  year : Int
  month : Nat
  day : Nat
deriving DecidableEq, Repr

/-- A cell of a dataframe: a string, a number, a date, or missing (`NaN`). -/
inductive Value where
  | str (s : String)
  | num (n : Int)
  | date (d : Date)
  | na
deriving DecidableEq, Repr

/-- `True` exactly on the missing marker (pandas `NaN`). -/
def Value.isNA : Value → Bool
  | Value.na => true
  | _ => false

/-- `pandas.Series.dt.month` applied to one cell. -/
def Value.monthOf : Value → Value
  | Value.date d => Value.num (Int.ofNat d.month)
  | _ => Value.na

/-- `pandas.Series.dt.year` applied to one cell. -/
def Value.yearOf : Value → Value
  | Value.date d => Value.num d.year
  | _ => Value.na

/-- `pandas.Series.dt.quarter` applied to one cell: quarter of the month. -/
def Value.quarterOf : Value → Value
  | Value.date d => Value.num (Int.ofNat ((d.month - 1) / 3 + 1))
  | _ => Value.na

/-- A dataframe: ordered column labels plus rows of cells (row-aligned by
position with the labels). -/
structure DataFrame where
  cols : List String
  rows : List (List Value)
deriving DecidableEq, Repr

/-- Label-based cell access `row[c]`: the cell under the first column
labelled `c`, or `NaN` when the label is absent. -/
def cell : List String → List Value → String → Value
  | [], _, _ => Value.na
  | c0 :: cs, r, c => if c0 = c then r.getD 0 Value.na else cell cs (r.drop 1) c

/-- The column of `df` labelled `c`, as the list of its cells (`df[c]`). -/
def column (df : DataFrame) (c : String) : List Value :=
  df.rows.map (fun r => cell df.cols r c)

/-- Overwrite the cell under the first column labelled `c` in one row. -/
def replaceCell : List String → List Value → String → Value → List Value
  | [], r, _, _ => r
  | c0 :: cs, r, c, v =>
    if c0 = c then r.set 0 v
    else
      match r with
      | [] => []
      | x :: xs => x :: replaceCell cs xs c v

/-- Column assignment `df[c] = vs`: replaces the column when the label
exists, otherwise appends a new column at the end (pandas semantics). -/
def setColumn (df : DataFrame) (c : String) (vs : List Value) : DataFrame :=
  if c ∈ df.cols then
    ⟨df.cols, (df.rows.zip vs).map (fun p => replaceCell df.cols p.1 c p.2)⟩
  else
    ⟨df.cols ++ [c], (df.rows.zip vs).map (fun p => p.1 ++ [p.2])⟩

/-- Column projection `df[cs]` followed by `reset_index(drop=True)`. -/
def selectColumns (df : DataFrame) (cs : List String) : DataFrame :=
  ⟨cs, df.rows.map (fun r => cs.map (fun c => cell df.cols r c))⟩

/-- `df[dst] = df[src].map(m)`: pandas `Series.map` sends values missing
from the mapping to `NaN` (the explicit unmapped marker). -/
def mapColumn (df : DataFrame) (src dst : String) (m : Value → Option Value) : DataFrame :=
  setColumn df dst ((column df src).map (fun v => (m v).getD Value.na))

/-- `df.dropna()` (step 5 of `main`): keep exactly the rows with no
missing cell. -/
def dropna (df : DataFrame) : DataFrame :=
  ⟨df.cols, df.rows.filter (fun r => !r.any Value.isNA)⟩

/-- Well-formedness: every row has exactly one cell per column label. -/
def wf (df : DataFrame) : Bool :=
  df.rows.all (fun r => r.length == df.cols.length)

/-- The column labels that `create_star_schema` generates itself. -/
def reservedCols : List String :=
  ["home_ownership_id", "loan_status_id", "issue_d_id", "fact_id"]

/-- The input table does not already use the generated key labels. -/
def hygienic (df : DataFrame) : Bool :=
  reservedCols.all (fun c => decide (c ∉ df.cols))

/-- `drop_duplicates()` on a single column: distinct values in
first-occurrence order. -/
def dedupFirst : List Value → List Value
  | [] => []
  | x :: xs => x :: dedupFirst (xs.filter (fun y => decide (y ≠ x)))
termination_by l => l.length
decreasing_by
  simp only [List.length_cons]
  exact Nat.lt_succ_of_le (List.length_filter_le _ _)

/-- Rows of a dimension table: each distinct value paired with its
surrogate key (`dim.index + 1`, keys counted from `k`) and the extra
derived attributes `extra`. -/
def dimRows (extra : Value → List Value) : Nat → List Value → List (List Value)
  | _, [] => []
  | k, v :: vs => ([v, Value.num (Int.ofNat k)] ++ extra v) :: dimRows extra (k + 1) vs

/-- No derived attributes (plain categorical dimension). -/
def noExtra : Value → List Value := fun _ => []

/-- Derived attributes of the date dimension: `month`, `year`, `quarter`
(assigned in this order in the source). -/
def dateExtra : Value → List Value :=
  fun v => [Value.monthOf v, Value.yearOf v, Value.quarterOf v]

/-- `df[[c]].drop_duplicates().reset_index(drop=True)` with
`dim[cid] = dim.index + 1`: a categorical dimension table. -/
def mkDim (df : DataFrame) (c cid : String) : DataFrame :=
  ⟨[c, cid], dimRows noExtra 1 (dedupFirst (column df c))⟩

/-- The issue-date dimension: as `mkDim`, plus the `month`, `year` and
`quarter` columns derived from the date value. -/
def mkDateDim (df : DataFrame) (c cid : String) : DataFrame :=
  ⟨[c, cid, "month", "year", "quarter"], dimRows dateExtra 1 (dedupFirst (column df c))⟩

/-- `dim.set_index(c)[cid].to_dict()` used as a mapping: looks the value
up among the dimension rows (later rows win, as for a python dict built
by insertion) and returns that row's key cell. -/
def dimMap (dim : DataFrame) (c cid : String) (v : Value) : Option Value :=
  (dim.rows.reverse.find? (fun r => decide (cell dim.cols r c = v))).map
    (fun r => cell dim.cols r cid)

/-- The fixed fact-table column list of `create_star_schema`. -/
def fact_columns : List String :=
  ["loan_amnt", "funded_amnt", "term", "int_rate", "installment",
   "home_ownership_id", "loan_status_id", "issue_d_id"]

/-- One dimension block of `create_star_schema`: when the source column
`c` is present in `df`, build the dimension table, record it under `nm`,
and map the surrogate keys onto the working fact data. -/
def addDimension (df fd : DataFrame) (dt : List (String × DataFrame))
    (c cid nm : String) (isDate : Bool) : DataFrame × List (String × DataFrame) :=
  if c ∈ df.cols then
    let dim := if isDate then mkDateDim df c cid else mkDim df c cid
    (mapColumn fd c cid (dimMap dim c cid), dt ++ [(nm, dim)])
  else (fd, dt)

/-- `create_star_schema(df)`: builds the three candidate dimensions that
are present, maps their keys onto a working copy of `df`, then projects
the available fact columns and appends the sequential `fact_id`. -/
def create_star_schema (df : DataFrame) : DataFrame × List (String × DataFrame) :=
  let s1 := addDimension df df [] "home_ownership" "home_ownership_id"
    "home_ownership_dim_yourname" false
  let s2 := addDimension df s1.1 s1.2 "loan_status" "loan_status_id"
    "loan_status_dim_yourname" false
  let s3 := addDimension df s2.1 s2.2 "issue_d" "issue_d_id"
    "issue_d_dim_yourname" true
  let available_columns := fact_columns.filter (fun c => decide (c ∈ s3.1.cols))
  let fact_table := selectColumns s3.1 available_columns
  (setColumn fact_table "fact_id"
    ((List.range fact_table.rows.length).map (fun i => Value.num (Int.ofNat i + 1))),
   s3.2)

/-- The tables of the target relational store, keyed by table name. -/
def Store : Type := List (String × DataFrame)

instance : DecidableEq Store := by
  unfold Store
  infer_instance

/-- Fault and initial-state model of the database engine: whether the
connection round trip raises, which `to_sql` call (0-based, dimension
writes first, fact write last) raises if any, and the tables already in
the store. -/
structure Engine where
  connectFails : Bool
  writeFailsAt : Option Nat
  tables0 : Store

/-- `DataFrame.to_sql(name, if_exists='replace')`: drop any existing
table of that name, then write the new contents. -/
def replaceTable (s : Store) (n : String) (d : DataFrame) : Store :=
  s.filter (fun p => decide (p.1 ≠ n)) ++ [(n, d)]

/-- Deploy the dimension tables in order; `idx` numbers the `to_sql`
calls so far.  Stops at the first write the engine makes raise and
reports the store reached, the next call index, and success. -/
def deployDims (failAt : Option Nat) : Nat → Store → List (String × DataFrame) →
    Store × Nat × Bool
  | idx, s, [] => (s, idx, true)
  | idx, s, (n, d) :: rest =>
    if failAt = some idx then (s, idx, false)
    else deployDims failAt (idx + 1) (replaceTable s n d) rest

/-- `SELECT COUNT(*) FROM n`: raises when no such table exists. -/
def countRows (s : Store) (n : String) : Except String Nat :=
  match s.find? (fun p => decide (p.1 = n)) with
  | some p => Except.ok p.2.rows.length
  | none => Except.error ("Invalid object name " ++ n)

/-- The post-deployment verification loop: one row-count query per name. -/
def verifyTables (s : Store) : List String → Except String (List Nat)
  | [] => Except.ok []
  | n :: rest =>
    match countRows s n with
    | Except.ok k => (verifyTables s rest).map (fun l => k :: l)
    | Except.error e => Except.error e

/-- The `try` body of `deploy_to_database`: connection test, one
`to_sql(..., replace)` per dimension table, `to_sql('loans_fact_yourname')`
for the fact table, then row-count verification over
`list(dim_tables.keys()) + ['loans_fact']`.  Returns the outcome and the
store state reached (writes before a raise persist). -/
def deployBody (eng : Engine) (fact_table : DataFrame)
    (dim_tables : List (String × DataFrame)) : Except String Unit × Store :=
  if eng.connectFails then (Except.error "connection failed", eng.tables0)
  else
    match deployDims eng.writeFailsAt 0 eng.tables0 dim_tables with
    | (s1, _, false) => (Except.error "write failed", s1)
    | (s1, idx, true) =>
      if eng.writeFailsAt = some idx then (Except.error "write failed", s1)
      else
        let s2 := replaceTable s1 "loans_fact_yourname" fact_table
        match verifyTables s2 (dim_tables.map Prod.fst ++ ["loans_fact"]) with
        | Except.ok _ => (Except.ok (), s2)
        | Except.error e => (Except.error e, s2)

/-- `deploy_to_database`: the whole body runs inside `try`/`except`, so
every raise is caught and turned into the boolean result `False`; the
store is left exactly as the body reached it. -/
def deploy_to_database (eng : Engine) (fact_table : DataFrame)
    (dim_tables : List (String × DataFrame)) : Bool × Store :=
  match deployBody eng fact_table dim_tables with
  | (Except.ok _, s) => (true, s)
  | (Except.error _, s) => (false, s)

/-- Step 8 of `main`: in deploy mode the pipeline result is the boolean
returned by the deployer, otherwise the run stays successful. -/
def mainDeployTail (deploy_mode : Bool) (eng : Engine) (fact_table : DataFrame)
    (dim_tables : List (String × DataFrame)) : Bool :=
  if deploy_mode then (deploy_to_database eng fact_table dim_tables).1 else true

/-- `sys.exit(0 if success else 1)`. -/
def exitCode (success : Bool) : Nat := if success then 0 else 1

/-- The empty dataframe (heap default). -/
def emptyDF : DataFrame := ⟨[], []⟩

/-- Heap of dataframe objects; handles are indices.  Used to state the
frame property of `create_star_schema` (no mutation of its argument). -/
def readH (h : List DataFrame) (i : Nat) : DataFrame := h.getD i emptyDF

/-- In-place update of the object a handle points to. -/
def writeH (h : List DataFrame) (i : Nat) (d : DataFrame) : List DataFrame :=
  h.set i d

/-- Allocation of a fresh dataframe object. -/
def allocH (h : List DataFrame) (d : DataFrame) : List DataFrame × Nat :=
  (h ++ [d], h.length)

/-- Heap-level dimension block: allocates the dimension table and then
assigns the key column of the working fact data in place
(`fact_data[cid] = fact_data[c].map(...)`). -/
def addDimensionH (df : DataFrame) (fact_h : Nat)
    (st : List DataFrame × List (String × Nat)) (c cid nm : String)
    (isDate : Bool) : List DataFrame × List (String × Nat) :=
  if c ∈ df.cols then
    let dim := if isDate then mkDateDim df c cid else mkDim df c cid
    let a := allocH st.1 dim
    let h2 := writeH a.1 fact_h
      (mapColumn (readH a.1 fact_h) c cid (dimMap dim c cid))
    (h2, st.2 ++ [(nm, a.2)])
  else st

/-- Heap-level `create_star_schema`: `fact_data = df.copy()` allocates,
each dimension block allocates its table and mutates only the copy, the
fact projection allocates, and the `fact_id` assignment mutates only the
freshly allocated fact table.  Returns the fact handle, the named
dimension handles, and the final heap. -/
def create_star_schema_heap (heap0 : List DataFrame) (dfh : Nat) :
    (Nat × List (String × Nat)) × List DataFrame :=
  let df := readH heap0 dfh
  let a0 := allocH heap0 df
  let st1 := addDimensionH df a0.2 (a0.1, []) "home_ownership" "home_ownership_id"
    "home_ownership_dim_yourname" false
  let st2 := addDimensionH df a0.2 st1 "loan_status" "loan_status_id"
    "loan_status_dim_yourname" false
  let st3 := addDimensionH df a0.2 st2 "issue_d" "issue_d_id"
    "issue_d_dim_yourname" true
  let fact_data := readH st3.1 a0.2
  let available_columns := fact_columns.filter (fun c => decide (c ∈ fact_data.cols))
  let a1 := allocH st3.1 (selectColumns fact_data available_columns)
  let ft0 := readH a1.1 a1.2
  let h2 := writeH a1.1 a1.2 (setColumn ft0 "fact_id"
    ((List.range ft0.rows.length).map (fun i => Value.num (Int.ofNat i + 1))))
  ((a1.2, st3.2), h2)

/-- The worked example of the specification: three loan rows with the
four relevant columns and no missing values. -/
def exDF : DataFrame :=
  ⟨["home_ownership", "loan_status", "issue_d", "loan_amnt"],
   [[Value.str "RENT", Value.str "Current", Value.date ⟨2018, 1, 1⟩, Value.num 1000],
    [Value.str "OWN", Value.str "Current", Value.date ⟨2018, 1, 1⟩, Value.num 2000],
    [Value.str "RENT", Value.str "Default", Value.date ⟨2018, 4, 1⟩, Value.num 3000]]⟩

/-- First index of `v` in a list (list length when absent).  Used to state
first-occurrence order. -/
def firstIdx : List Value → Value → Nat
  | [], _ => 0
  | x :: xs, v => if x = v then 0 else firstIdx xs v + 1

theorem getD_map_lt {α β : Type} (f : α → β) (l : List α) (i : Nat) (da : α) (db : β)
    (h : i < l.length) : (l.map f).getD i db = f (l.getD i da) := by
  induction l generalizing i with
  | nil => simp at h
  | cons x xs ih =>
    cases i with
    | zero => rfl
    | succ j =>
      simp only [List.length_cons, Nat.succ_lt_succ_iff] at h
      simpa using ih j h

theorem getD_mem_lt {α : Type} (l : List α) (i : Nat) (d : α) (h : i < l.length) :
    l.getD i d ∈ l := by
  induction l generalizing i with
  | nil => simp at h
  | cons x xs ih =>
    cases i with
    | zero => simp [List.getD]
    | succ j =>
      simp only [List.length_cons, Nat.succ_lt_succ_iff] at h
      exact List.mem_cons_of_mem _ (by simpa using ih j h)

theorem getD_append_lt {α : Type} (l l2 : List α) (i : Nat) (d : α) (h : i < l.length) :
    (l ++ l2).getD i d = l.getD i d := by
  induction l generalizing i with
  | nil => simp at h
  | cons x xs ih =>
    cases i with
    | zero => rfl
    | succ j =>
      simp only [List.length_cons, Nat.succ_lt_succ_iff] at h
      simpa using ih j h

theorem getD_set_ne {α : Type} (l : List α) (i j : Nat) (v : α) (d : α) (h : i ≠ j) :
    (l.set j v).getD i d = l.getD i d := by
  induction l generalizing i j with
  | nil => simp [List.set]
  | cons x xs ih =>
    cases j with
    | zero =>
      cases i with
      | zero => exact absurd rfl h
      | succ i2 => rfl
    | succ j2 =>
      cases i with
      | zero => rfl
      | succ i2 => simpa using ih i2 j2 (fun hc => h (by simp [hc]))

theorem cell_head (c : String) (cs : List String) (r : List Value) :
    cell (c :: cs) r c = r.getD 0 Value.na := by
  simp [cell]

theorem cell_cons_ne (c0 c : String) (cs : List String) (r : List Value) (h : c0 ≠ c) :
    cell (c0 :: cs) r c = cell cs (r.drop 1) c := by
  simp [cell, h]

theorem cell_second (c cid : String) (cs : List String) (r : List Value) (h : c ≠ cid) :
    cell (c :: cid :: cs) r cid = r.getD 1 Value.na := by
  rw [cell_cons_ne _ _ _ _ h, cell_head]
  cases r with
  | nil => rfl
  | cons x xs => rfl

theorem cell_nil_row (cols : List String) (c : String) :
    cell cols [] c = Value.na := by
  induction cols with
  | nil => rfl
  | cons c0 cs ih =>
    by_cases h : c0 = c
    · subst h
      simp [cell_head, List.getD]
    · rw [cell_cons_ne _ _ _ _ h]
      simpa using ih

theorem cell_append_fresh (dst : String) (v : Value) :
    ∀ (cols : List String) (r : List Value), r.length = cols.length → dst ∉ cols →
      ∀ c, cell (cols ++ [dst]) (r ++ [v]) c = if c = dst then v else cell cols r c := by
  intro cols
  induction cols with
  | nil =>
    intro r hlen _ c
    have hr : r = [] := List.length_eq_zero.mp hlen
    subst hr
    by_cases h : c = dst
    · subst h
      simp [cell_head, List.getD]
    · simp only [List.nil_append]
      rw [cell_cons_ne _ _ _ _ (fun hc => h hc.symm)]
      simp [cell, h]
  | cons c0 cs ih =>
    intro r hlen hdst c
    have hc0 : c0 ≠ dst := fun h => hdst (by simp [h])
    cases r with
    | nil => simp at hlen
    | cons x xs =>
      simp only [List.length_cons] at hlen
      have hxs := ih xs (Nat.succ_injective hlen) (fun h => hdst (List.mem_cons_of_mem _ h))
      by_cases h : c0 = c
      · subst h
        have : c0 = dst → False := hc0
        simp [cell_head, List.getD, fun hc : c0 = dst => hc0 hc]
      · rw [List.cons_append, List.cons_append, cell_cons_ne _ _ _ _ h, cell_cons_ne _ _ _ _ h]
        simpa using hxs c

theorem cell_select (g : String → Value) :
    ∀ (cs : List String) (c : String), c ∈ cs → cell cs (cs.map g) c = g c := by
  intro cs
  induction cs with
  | nil => intro c hc; simp at hc
  | cons c0 rest ih =>
    intro c hc
    by_cases h : c0 = c
    · subst h
      simp [cell_head, List.getD]
    · have hc2 : c ∈ rest := by
        rcases List.mem_cons.mp hc with h1 | h1
        · exact absurd h1.symm h
        · exact h1
      rw [cell_cons_ne _ _ _ _ h]
      simpa using ih c hc2

theorem wf_rows (df : DataFrame) (hwf : wf df = true) :
    ∀ r ∈ df.rows, r.length = df.cols.length := by
  intro r hr
  have := List.all_eq_true.mp hwf r hr
  simpa using this

theorem setColumn_zip_map (cols : List String) (dst c : String) (hdst : dst ∉ cols) :
    ∀ (rows : List (List Value)) (vs : List Value), rows.length = vs.length →
      (∀ r ∈ rows, r.length = cols.length) →
      (rows.zip vs).map (fun p => cell (cols ++ [dst]) (p.1 ++ [p.2]) c) =
        if c = dst then vs else rows.map (fun r => cell cols r c) := by
  intro rows
  induction rows with
  | nil =>
    intro vs hlen _
    have hvs : vs = [] := List.length_eq_zero.mp hlen.symm
    subst hvs
    by_cases h : c = dst <;> simp [h]
  | cons r rs ih =>
    intro vs hlen hwfr
    cases vs with
    | nil => simp at hlen
    | cons v vs2 =>
      simp only [List.zip_cons_cons, List.map_cons]
      rw [cell_append_fresh dst v cols r (hwfr r (by simp)) hdst c]
      rw [ih vs2 (by simpa using hlen) (fun r2 h2 => hwfr r2 (by simp [h2]))]
      by_cases h : c = dst <;> simp [h]

theorem setColumn_cols_fresh (df : DataFrame) (dst : String) (vs : List Value)
    (hdst : dst ∉ df.cols) : (setColumn df dst vs).cols = df.cols ++ [dst] := by
  simp [setColumn, hdst]

theorem column_setColumn_fresh (df : DataFrame) (dst : String) (vs : List Value) (c : String)
    (hdst : dst ∉ df.cols) (hwf : wf df = true) (hlen : vs.length = df.rows.length) :
    column (setColumn df dst vs) c = if c = dst then vs else column df c := by
  simp only [column, setColumn, if_neg hdst, List.map_map]
  exact setColumn_zip_map df.cols dst c hdst df.rows vs hlen.symm (wf_rows df hwf)

theorem wf_setColumn_fresh (df : DataFrame) (dst : String) (vs : List Value)
    (hdst : dst ∉ df.cols) (hwf : wf df = true) : wf (setColumn df dst vs) = true := by
  simp only [setColumn, if_neg hdst, wf, List.all_eq_true]
  intro r hr
  simp only [List.mem_map] at hr
  obtain ⟨p, hp, rfl⟩ := hr
  have hmem := List.of_mem_zip hp
  have := wf_rows df hwf p.1 hmem.1
  simp [this]

theorem setColumn_rows_length (df : DataFrame) (c : String) (vs : List Value) :
    (setColumn df c vs).rows.length = min df.rows.length vs.length := by
  simp only [setColumn]
  split <;> simp [List.length_zip]

theorem setColumn_cols_sub (df : DataFrame) (c : String) (vs : List Value) :
    df.cols ⊆ (setColumn df c vs).cols := by
  simp only [setColumn]
  split
  · exact fun x hx => hx
  · exact fun x hx => List.mem_append_left _ hx

theorem mapColumn_rows_length (df : DataFrame) (src dst : String) (m : Value → Option Value) :
    (mapColumn df src dst m).rows.length = df.rows.length := by
  simp [mapColumn, setColumn_rows_length, column]

theorem mapColumn_cols_fresh (df : DataFrame) (src dst : String) (m : Value → Option Value)
    (hdst : dst ∉ df.cols) : (mapColumn df src dst m).cols = df.cols ++ [dst] :=
  setColumn_cols_fresh df dst _ hdst

theorem mapColumn_cols_sub (df : DataFrame) (src dst : String) (m : Value → Option Value) :
    df.cols ⊆ (mapColumn df src dst m).cols :=
  setColumn_cols_sub df dst _

theorem wf_mapColumn_fresh (df : DataFrame) (src dst : String) (m : Value → Option Value)
    (hdst : dst ∉ df.cols) (hwf : wf df = true) : wf (mapColumn df src dst m) = true :=
  wf_setColumn_fresh df dst _ hdst hwf

theorem column_mapColumn_fresh (df : DataFrame) (src dst : String) (m : Value → Option Value)
    (c : String) (hdst : dst ∉ df.cols) (hwf : wf df = true) :
    column (mapColumn df src dst m) c =
      if c = dst then (column df src).map (fun v => (m v).getD Value.na) else column df c := by
  unfold mapColumn
  exact column_setColumn_fresh df dst _ c hdst hwf (by simp [column])

theorem column_selectColumns (df : DataFrame) (cs : List String) (c : String) (hc : c ∈ cs) :
    column (selectColumns df cs) c = column df c := by
  simp only [column, selectColumns, List.map_map]
  refine List.map_congr_left ?_
  intro r _
  exact cell_select (fun c2 => cell df.cols r c2) cs c hc

theorem wf_selectColumns (df : DataFrame) (cs : List String) :
    wf (selectColumns df cs) = true := by
  simp only [wf, selectColumns, List.all_eq_true]
  intro r hr
  simp only [List.mem_map] at hr
  obtain ⟨r0, _, rfl⟩ := hr
  simp

theorem selectColumns_rows_length (df : DataFrame) (cs : List String) :
    (selectColumns df cs).rows.length = df.rows.length := by
  simp [selectColumns]

theorem mem_dedupFirst (v : Value) : ∀ (l : List Value), v ∈ dedupFirst l ↔ v ∈ l := by
  intro l
  induction l using dedupFirst.induct with
  | case1 => simp [dedupFirst]
  | case2 x xs ih =>
    rw [dedupFirst]
    simp only [List.mem_cons, ih, List.mem_filter, decide_eq_true_iff]
    constructor
    · rintro (h | ⟨h1, _⟩)
      · exact Or.inl h
      · exact Or.inr h1
    · rintro (h | h1)
      · exact Or.inl h
      · by_cases hx : v = x
        · exact Or.inl hx
        · exact Or.inr ⟨h1, hx⟩

theorem nodup_dedupFirst : ∀ (l : List Value), (dedupFirst l).Nodup := by
  intro l
  induction l using dedupFirst.induct with
  | case1 => simp [dedupFirst]
  | case2 x xs ih =>
    rw [dedupFirst]
    refine List.nodup_cons.mpr ⟨?_, ih⟩
    intro hmem
    have := (mem_dedupFirst x _).mp hmem
    simp only [List.mem_filter, decide_eq_true_iff] at this
    exact this.2 rfl

theorem firstIdx_filter_lt (p : Value → Bool) :
    ∀ (xs : List Value) (a b : Value), a ∈ xs.filter p → b ∈ xs.filter p →
      firstIdx (xs.filter p) a < firstIdx (xs.filter p) b → firstIdx xs a < firstIdx xs b := by
  intro xs
  induction xs with
  | nil => intro a b ha _ _; simp at ha
  | cons y ys ih =>
    intro a b ha hb hlt
    by_cases hp : p y
    · rw [List.filter_cons_of_pos hp] at ha hb hlt
      by_cases hya : y = a
      · subst hya
        have hyb : y ≠ b := by
          intro hyb
          rw [← hyb] at hlt
          simp [firstIdx] at hlt
        rw [firstIdx, if_pos rfl] at hlt ⊢
        rw [firstIdx, if_neg hyb] at hlt ⊢
        exact Nat.succ_pos _
      · have hyb : y ≠ b := by
          intro hyb
          rw [← hyb] at hlt
          have h0 : firstIdx (y :: List.filter p ys) y = 0 := by simp [firstIdx]
          rw [h0] at hlt
          exact Nat.not_lt_zero _ hlt
        have ha2 : a ∈ ys.filter p := by
          rcases List.mem_cons.mp ha with h | h
          · exact absurd h.symm hya
          · exact h
        have hb2 : b ∈ ys.filter p := by
          rcases List.mem_cons.mp hb with h | h
          · exact absurd h.symm hyb
          · exact h
        rw [firstIdx, if_neg hya, firstIdx, if_neg hyb] at hlt
        rw [firstIdx, if_neg hya, firstIdx, if_neg hyb]
        exact Nat.succ_lt_succ (ih a b ha2 hb2 (Nat.lt_of_succ_lt_succ hlt))
    · rw [List.filter_cons_of_neg hp] at ha hb hlt
      have hpa : p a = true := (List.mem_filter.mp ha).2
      have hpb : p b = true := (List.mem_filter.mp hb).2
      have hya : y ≠ a := fun h => (by simp [h, hpa] at hp)
      have hyb : y ≠ b := fun h => (by simp [h, hpb] at hp)
      rw [firstIdx, if_neg hya, firstIdx, if_neg hyb]
      exact Nat.succ_lt_succ (ih a b ha hb hlt)

theorem pairwise_firstIdx_dedupFirst :
    ∀ (l : List Value), (dedupFirst l).Pairwise (fun a b => firstIdx l a < firstIdx l b) := by
  intro l
  induction l using dedupFirst.induct with
  | case1 => simp [dedupFirst]
  | case2 x xs ih =>
    rw [dedupFirst]
    refine List.pairwise_cons.mpr ⟨?_, ?_⟩
    · intro b hb
      have hbf := (mem_dedupFirst b _).mp hb
      have hbx : b ≠ x := by
        have := (List.mem_filter.mp hbf).2
        simpa using this
      rw [firstIdx, if_pos rfl, firstIdx, if_neg (fun h => hbx h.symm)]
      exact Nat.succ_pos _
    · refine List.Pairwise.imp_of_mem ?_ ih
      intro a b ha hb hlt
      have haf := (mem_dedupFirst a _).mp ha
      have hbf := (mem_dedupFirst b _).mp hb
      have hax : a ≠ x := by
        have := (List.mem_filter.mp haf).2
        simpa using this
      have hbx : b ≠ x := by
        have := (List.mem_filter.mp hbf).2
        simpa using this
      have := firstIdx_filter_lt _ xs a b haf hbf hlt
      rw [firstIdx, if_neg (fun h => hax h.symm), firstIdx, if_neg (fun h => hbx h.symm)]
      exact Nat.succ_lt_succ this

theorem length_dedupFirst (l : List Value) :
    (dedupFirst l).length = l.toFinset.card := by
  have hset : (dedupFirst l).toFinset = l.toFinset := by
    ext v
    simp [List.mem_toFinset, mem_dedupFirst]
  rw [← hset, List.toFinset_card_of_nodup (nodup_dedupFirst l)]

theorem dimRows_length (e : Value → List Value) :
    ∀ (dl : List Value) (k : Nat), (dimRows e k dl).length = dl.length := by
  intro dl
  induction dl with
  | nil => intro k; simp [dimRows]
  | cons v vs ih => intro k; simp [dimRows, ih]

theorem dimRows_map_head (e : Value → List Value) :
    ∀ (dl : List Value) (k : Nat),
      (dimRows e k dl).map (fun r => r.getD 1 Value.na) =
        (List.range dl.length).map (fun i => Value.num (Int.ofNat (k + i))) := by
  intro dl
  induction dl with
  | nil => intro k; simp [dimRows]
  | cons v vs ih =>
    intro k
    have hr : (List.range (v :: vs).length).map (fun i => Value.num (Int.ofNat (k + i))) =
        Value.num (Int.ofNat k) ::
          (List.range vs.length).map (fun i => Value.num (Int.ofNat (k + 1 + i))) := by
      rw [List.length_cons, List.range_succ_eq_map, List.map_cons, List.map_map]
      simp only [List.cons.injEq]
      refine ⟨by simp, ?_⟩
      refine List.map_congr_left ?_
      intro i _
      simp only [Function.comp_apply]
      have harith : k + Nat.succ i = k + 1 + i := by omega
      rw [harith]
    rw [hr]
    simp only [dimRows, List.map_cons, List.cons.injEq]
    exact ⟨rfl, ih (k + 1)⟩

theorem dimRows_map_val (e : Value → List Value) :
    ∀ (dl : List Value) (k : Nat),
      (dimRows e k dl).map (fun r => r.getD 0 Value.na) = dl := by
  intro dl
  induction dl with
  | nil => intro k; simp [dimRows]
  | cons v vs ih =>
    intro k
    simp only [dimRows, List.map_cons, List.cons.injEq]
    exact ⟨rfl, ih (k + 1)⟩

theorem dimRows_mem_shape (e : Value → List Value) :
    ∀ (dl : List Value) (k : Nat) (r : List Value), r ∈ dimRows e k dl →
      ∃ v kk, v ∈ dl ∧ r = [v, Value.num kk] ++ e v := by
  intro dl
  induction dl with
  | nil => intro k r hr; simp [dimRows] at hr
  | cons v vs ih =>
    intro k r hr
    simp only [dimRows, List.mem_cons] at hr
    rcases hr with h | h
    · exact ⟨v, Int.ofNat k, by simp, h⟩
    · obtain ⟨v2, kk, hv2, hr2⟩ := ih (k + 1) r h
      exact ⟨v2, kk, by simp [hv2], hr2⟩

theorem value_num_range_inj (k : Nat) :
    Function.Injective (fun i => Value.num (Int.ofNat (k + i))) := by
  intro a b h
  dsimp only at h
  injection h with h2
  have h3 := Int.ofNat.inj h2
  omega

theorem dimRows_key_inj (c cid : String) (rest : List String) (hne : c ≠ cid)
    (e : Value → List Value) (dl : List Value) :
    ∀ r1 ∈ dimRows e 1 dl, ∀ r2 ∈ dimRows e 1 dl,
      cell (c :: cid :: rest) r1 cid = cell (c :: cid :: rest) r2 cid → r1 = r2 := by
  have hnd : ((dimRows e 1 dl).map (fun r => r.getD 1 Value.na)).Nodup := by
    rw [dimRows_map_head]
    exact (List.nodup_range _).map (value_num_range_inj 1)
  intro r1 h1 r2 h2 heq
  rw [cell_second _ _ _ _ hne, cell_second _ _ _ _ hne] at heq
  exact List.inj_on_of_nodup_map hnd h1 h2 heq

theorem dimMap_lookup (c cid : String) (rest : List String) (hne : c ≠ cid)
    (e : Value → List Value) (dl : List Value) (v : Value) (hv : v ∈ dl) :
    ∃ r0, r0 ∈ dimRows e 1 dl ∧ cell (c :: cid :: rest) r0 c = v ∧
      dimMap ⟨c :: cid :: rest, dimRows e 1 dl⟩ c cid v =
        some (cell (c :: cid :: rest) r0 cid) ∧
      ∃ kk : Int, cell (c :: cid :: rest) r0 cid = Value.num kk := by
  have hvm : v ∈ (dimRows e 1 dl).map (fun r => r.getD 0 Value.na) := by
    rw [dimRows_map_val]
    exact hv
  obtain ⟨rw0, hrw0, hrw0v⟩ := List.mem_map.mp hvm
  have hsome : ((dimRows e 1 dl).reverse.find?
      (fun r => decide (cell (c :: cid :: rest) r c = v))).isSome = true := by
    refine List.find?_isSome.mpr ⟨rw0, List.mem_reverse.mpr hrw0, ?_⟩
    rw [cell_head]
    exact decide_eq_true hrw0v
  obtain ⟨r0, hr0⟩ := Option.isSome_iff_exists.mp hsome
  have hr0mem : r0 ∈ dimRows e 1 dl :=
    List.mem_reverse.mp (List.mem_of_find?_eq_some hr0)
  have hr0v : cell (c :: cid :: rest) r0 c = v := by
    have := List.find?_some hr0
    simpa using this
  refine ⟨r0, hr0mem, hr0v, ?_, ?_⟩
  · simp only [dimMap]
    rw [hr0]
    rfl
  · obtain ⟨v2, kk, _, hshape⟩ := dimRows_mem_shape e dl 1 r0 hr0mem
    refine ⟨kk, ?_⟩
    rw [cell_second _ _ _ _ hne, hshape]
    rfl

theorem hygienic_spec (df : DataFrame) (h : hygienic df = true) :
    "home_ownership_id" ∉ df.cols ∧ "loan_status_id" ∉ df.cols ∧
      "issue_d_id" ∉ df.cols ∧ "fact_id" ∉ df.cols := by
  simp only [hygienic, reservedCols, List.all_eq_true, decide_eq_true_iff] at h
  exact ⟨h _ (by simp), h _ (by simp), h _ (by simp), h _ (by simp)⟩

theorem addDimension_pos (df fd : DataFrame) (dt : List (String × DataFrame))
    (c cid nm : String) (b : Bool) (h : c ∈ df.cols) :
    addDimension df fd dt c cid nm b =
      (mapColumn fd c cid (dimMap (if b then mkDateDim df c cid else mkDim df c cid) c cid),
       dt ++ [(nm, if b then mkDateDim df c cid else mkDim df c cid)]) := by
  simp [addDimension, h]

theorem addDimension_neg (df fd : DataFrame) (dt : List (String × DataFrame))
    (c cid nm : String) (b : Bool) (h : c ∉ df.cols) :
    addDimension df fd dt c cid nm b = (fd, dt) := by
  simp [addDimension, h]

theorem addDimension_rows_length (df fd : DataFrame) (dt : List (String × DataFrame))
    (c cid nm : String) (b : Bool) :
    (addDimension df fd dt c cid nm b).1.rows.length = fd.rows.length := by
  by_cases h : c ∈ df.cols
  · rw [addDimension_pos df fd dt c cid nm b h]
    exact mapColumn_rows_length fd c cid _
  · rw [addDimension_neg df fd dt c cid nm b h]

theorem addDimension_wf (df fd : DataFrame) (dt : List (String × DataFrame))
    (c cid nm : String) (b : Bool) (hw : wf fd = true) (hcid : cid ∉ fd.cols) :
    wf (addDimension df fd dt c cid nm b).1 = true := by
  by_cases h : c ∈ df.cols
  · rw [addDimension_pos df fd dt c cid nm b h]
    exact wf_mapColumn_fresh fd c cid _ hcid hw
  · rw [addDimension_neg df fd dt c cid nm b h]
    exact hw

theorem addDimension_cols_sub (df fd : DataFrame) (dt : List (String × DataFrame))
    (c cid nm : String) (b : Bool) :
    fd.cols ⊆ (addDimension df fd dt c cid nm b).1.cols := by
  by_cases h : c ∈ df.cols
  · rw [addDimension_pos df fd dt c cid nm b h]
    exact mapColumn_cols_sub fd c cid _
  · rw [addDimension_neg df fd dt c cid nm b h]
    exact fun x hx => hx

theorem addDimension_cols_sub2 (df fd : DataFrame) (dt : List (String × DataFrame))
    (c cid nm : String) (b : Bool) (hcid : cid ∉ fd.cols) :
    (addDimension df fd dt c cid nm b).1.cols ⊆ fd.cols ++ [cid] := by
  by_cases h : c ∈ df.cols
  · rw [addDimension_pos df fd dt c cid nm b h]
    rw [mapColumn_cols_fresh fd c cid _ hcid]
    exact fun x hx => hx
  · rw [addDimension_neg df fd dt c cid nm b h]
    exact fun x hx => List.mem_append_left _ hx

theorem addDimension_column_other (df fd : DataFrame) (dt : List (String × DataFrame))
    (c cid nm : String) (b : Bool) (x : String) (hx : x ≠ cid)
    (hw : wf fd = true) (hcid : cid ∉ fd.cols) :
    column (addDimension df fd dt c cid nm b).1 x = column fd x := by
  by_cases h : c ∈ df.cols
  · rw [addDimension_pos df fd dt c cid nm b h]
    rw [column_mapColumn_fresh fd c cid _ x hcid hw]
    simp [hx]
  · rw [addDimension_neg df fd dt c cid nm b h]

theorem addDimension_column_key (df fd : DataFrame) (dt : List (String × DataFrame))
    (c cid nm : String) (b : Bool) (h : c ∈ df.cols)
    (hw : wf fd = true) (hcid : cid ∉ fd.cols) :
    column (addDimension df fd dt c cid nm b).1 cid =
      (column fd c).map (fun v =>
        ((dimMap (if b then mkDateDim df c cid else mkDim df c cid) c cid) v).getD Value.na) := by
  rw [addDimension_pos df fd dt c cid nm b h]
  rw [column_mapColumn_fresh fd c cid _ cid hcid hw]
  simp

theorem addDimension_key_mem (df fd : DataFrame) (dt : List (String × DataFrame))
    (c cid nm : String) (b : Bool) (h : c ∈ df.cols) (hcid : cid ∉ fd.cols) :
    cid ∈ (addDimension df fd dt c cid nm b).1.cols := by
  rw [addDimension_pos df fd dt c cid nm b h]
  rw [mapColumn_cols_fresh fd c cid _ hcid]
  simp

theorem addDimension_dims_mono (df fd : DataFrame) (dt : List (String × DataFrame))
    (c cid nm : String) (b : Bool) (p : String × DataFrame) (hp : p ∈ dt) :
    p ∈ (addDimension df fd dt c cid nm b).2 := by
  by_cases h : c ∈ df.cols
  · rw [addDimension_pos df fd dt c cid nm b h]
    exact List.mem_append_left _ hp
  · rw [addDimension_neg df fd dt c cid nm b h]
    exact hp

/-- Stage 1 of `create_star_schema`: the home-ownership block. -/
def cssS1 (df : DataFrame) : DataFrame × List (String × DataFrame) :=
  addDimension df df [] "home_ownership" "home_ownership_id"
    "home_ownership_dim_yourname" false

/-- Stage 2 of `create_star_schema`: the loan-status block. -/
def cssS2 (df : DataFrame) : DataFrame × List (String × DataFrame) :=
  addDimension df (cssS1 df).1 (cssS1 df).2 "loan_status" "loan_status_id"
    "loan_status_dim_yourname" false

/-- Stage 3 of `create_star_schema`: the issue-date block. -/
def cssS3 (df : DataFrame) : DataFrame × List (String × DataFrame) :=
  addDimension df (cssS2 df).1 (cssS2 df).2 "issue_d" "issue_d_id"
    "issue_d_dim_yourname" true

theorem create_star_schema_eq (df : DataFrame) :
    create_star_schema df =
      (setColumn
        (selectColumns (cssS3 df).1
          (fact_columns.filter (fun c => decide (c ∈ (cssS3 df).1.cols))))
        "fact_id"
        ((List.range (selectColumns (cssS3 df).1
            (fact_columns.filter (fun c => decide (c ∈ (cssS3 df).1.cols)))).rows.length).map
          (fun i => Value.num (Int.ofNat i + 1))),
       (cssS3 df).2) := rfl

theorem create_star_schema_snd (df : DataFrame) :
    (create_star_schema df).2 = (cssS3 df).2 := rfl

theorem create_star_schema_fst (df : DataFrame) :
    (create_star_schema df).1 =
      setColumn
        (selectColumns (cssS3 df).1
          (fact_columns.filter (fun c => decide (c ∈ (cssS3 df).1.cols))))
        "fact_id"
        ((List.range (selectColumns (cssS3 df).1
            (fact_columns.filter (fun c => decide (c ∈ (cssS3 df).1.cols)))).rows.length).map
          (fun i => Value.num (Int.ofNat i + 1))) := rfl

theorem cssS3_rows_length (df : DataFrame) :
    (cssS3 df).1.rows.length = df.rows.length := by
  simp only [cssS3, cssS2, cssS1]
  rw [addDimension_rows_length, addDimension_rows_length, addDimension_rows_length]

theorem lsid_not_mem_s1 (df : DataFrame) (hyg : hygienic df = true) :
    "loan_status_id" ∉ (cssS1 df).1.cols := by
  have h := hygienic_spec df hyg
  intro hmem
  have h2 := addDimension_cols_sub2 df df [] "home_ownership" "home_ownership_id"
    "home_ownership_dim_yourname" false h.1 hmem
  rcases List.mem_append.mp h2 with h3 | h3
  · exact h.2.1 h3
  · simp at h3

theorem isd_not_mem_s2 (df : DataFrame) (hyg : hygienic df = true) :
    "issue_d_id" ∉ (cssS2 df).1.cols := by
  have h := hygienic_spec df hyg
  intro hmem
  have h2 := addDimension_cols_sub2 df (cssS1 df).1 (cssS1 df).2 "loan_status"
    "loan_status_id" "loan_status_dim_yourname" false (lsid_not_mem_s1 df hyg) hmem
  rcases List.mem_append.mp h2 with h3 | h3
  · have h4 := addDimension_cols_sub2 df df [] "home_ownership" "home_ownership_id"
      "home_ownership_dim_yourname" false h.1 h3
    rcases List.mem_append.mp h4 with h5 | h5
    · exact h.2.2.1 h5
    · simp at h5
  · simp at h3

theorem wf_s1 (df : DataFrame) (hw : wf df = true) (hyg : hygienic df = true) :
    wf (cssS1 df).1 = true :=
  addDimension_wf df df [] _ _ _ _ hw (hygienic_spec df hyg).1

theorem wf_s2 (df : DataFrame) (hw : wf df = true) (hyg : hygienic df = true) :
    wf (cssS2 df).1 = true :=
  addDimension_wf df (cssS1 df).1 (cssS1 df).2 _ _ _ _ (wf_s1 df hw hyg)
    (lsid_not_mem_s1 df hyg)

theorem wf_s3 (df : DataFrame) (hw : wf df = true) (hyg : hygienic df = true) :
    wf (cssS3 df).1 = true :=
  addDimension_wf df (cssS2 df).1 (cssS2 df).2 _ _ _ _ (wf_s2 df hw hyg)
    (isd_not_mem_s2 df hyg)

theorem s1_column_other (df : DataFrame) (x : String) (hx : x ≠ "home_ownership_id")
    (hw : wf df = true) (hyg : hygienic df = true) :
    column (cssS1 df).1 x = column df x :=
  addDimension_column_other df df [] _ _ _ _ x hx hw (hygienic_spec df hyg).1

theorem s2_column_other (df : DataFrame) (x : String) (hx : x ≠ "loan_status_id")
    (hw : wf df = true) (hyg : hygienic df = true) :
    column (cssS2 df).1 x = column (cssS1 df).1 x :=
  addDimension_column_other df (cssS1 df).1 (cssS1 df).2 _ _ _ _ x hx
    (wf_s1 df hw hyg) (lsid_not_mem_s1 df hyg)

theorem s3_column_other (df : DataFrame) (x : String) (hx : x ≠ "issue_d_id")
    (hw : wf df = true) (hyg : hygienic df = true) :
    column (cssS3 df).1 x = column (cssS2 df).1 x :=
  addDimension_column_other df (cssS2 df).1 (cssS2 df).2 _ _ _ _ x hx
    (wf_s2 df hw hyg) (isd_not_mem_s2 df hyg)

theorem s3_column_hoid (df : DataFrame) (hw : wf df = true) (hyg : hygienic df = true)
    (h1 : "home_ownership" ∈ df.cols) :
    column (cssS3 df).1 "home_ownership_id" =
      (column df "home_ownership").map (fun v =>
        ((dimMap (mkDim df "home_ownership" "home_ownership_id")
          "home_ownership" "home_ownership_id") v).getD Value.na) := by
  rw [s3_column_other df _ (by decide) hw hyg, s2_column_other df _ (by decide) hw hyg]
  have h2 := addDimension_column_key df df [] "home_ownership" "home_ownership_id"
    "home_ownership_dim_yourname" false h1 hw (hygienic_spec df hyg).1
  simpa using h2

theorem s3_column_lsid (df : DataFrame) (hw : wf df = true) (hyg : hygienic df = true)
    (h2 : "loan_status" ∈ df.cols) :
    column (cssS3 df).1 "loan_status_id" =
      (column df "loan_status").map (fun v =>
        ((dimMap (mkDim df "loan_status" "loan_status_id")
          "loan_status" "loan_status_id") v).getD Value.na) := by
  rw [s3_column_other df _ (by decide) hw hyg]
  have hkey := addDimension_column_key df (cssS1 df).1 (cssS1 df).2 "loan_status"
    "loan_status_id" "loan_status_dim_yourname" false h2 (wf_s1 df hw hyg)
    (lsid_not_mem_s1 df hyg)
  have hsrc := s1_column_other df "loan_status" (by decide) hw hyg
  rw [hsrc] at hkey
  simpa using hkey

theorem s3_column_did (df : DataFrame) (hw : wf df = true) (hyg : hygienic df = true)
    (h3 : "issue_d" ∈ df.cols) :
    column (cssS3 df).1 "issue_d_id" =
      (column df "issue_d").map (fun v =>
        ((dimMap (mkDateDim df "issue_d" "issue_d_id") "issue_d" "issue_d_id") v).getD
          Value.na) := by
  have hkey := addDimension_column_key df (cssS2 df).1 (cssS2 df).2 "issue_d"
    "issue_d_id" "issue_d_dim_yourname" true h3 (wf_s2 df hw hyg) (isd_not_mem_s2 df hyg)
  have hsrc2 : column (cssS2 df).1 "issue_d" = column df "issue_d" := by
    rw [s2_column_other df _ (by decide) hw hyg, s1_column_other df _ (by decide) hw hyg]
  rw [hsrc2] at hkey
  simpa using hkey

theorem s3_hoid_mem (df : DataFrame) (hyg : hygienic df = true)
    (h1 : "home_ownership" ∈ df.cols) :
    "home_ownership_id" ∈ (cssS3 df).1.cols := by
  apply addDimension_cols_sub df (cssS2 df).1 (cssS2 df).2 "issue_d" "issue_d_id"
    "issue_d_dim_yourname" true
  apply addDimension_cols_sub df (cssS1 df).1 (cssS1 df).2 "loan_status" "loan_status_id"
    "loan_status_dim_yourname" false
  exact addDimension_key_mem df df [] "home_ownership" "home_ownership_id"
    "home_ownership_dim_yourname" false h1 (hygienic_spec df hyg).1

theorem s3_lsid_mem (df : DataFrame) (hyg : hygienic df = true)
    (h2 : "loan_status" ∈ df.cols) :
    "loan_status_id" ∈ (cssS3 df).1.cols := by
  apply addDimension_cols_sub df (cssS2 df).1 (cssS2 df).2 "issue_d" "issue_d_id"
    "issue_d_dim_yourname" true
  exact addDimension_key_mem df (cssS1 df).1 (cssS1 df).2 "loan_status" "loan_status_id"
    "loan_status_dim_yourname" false h2 (lsid_not_mem_s1 df hyg)

theorem s3_did_mem (df : DataFrame) (hyg : hygienic df = true)
    (h3 : "issue_d" ∈ df.cols) :
    "issue_d_id" ∈ (cssS3 df).1.cols :=
  addDimension_key_mem df (cssS2 df).1 (cssS2 df).2 "issue_d" "issue_d_id"
    "issue_d_dim_yourname" true h3 (isd_not_mem_s2 df hyg)

theorem fact_column_of_s3 (df : DataFrame) (x : String) (hxfc : x ∈ fact_columns)
    (hx3 : x ∈ (cssS3 df).1.cols) :
    column (create_star_schema df).1 x = column (cssS3 df).1 x := by
  rw [create_star_schema_fst]
  set av := fact_columns.filter (fun c => decide (c ∈ (cssS3 df).1.cols)) with hav
  have hfid : "fact_id" ∉ av := by
    rw [hav]
    intro hm
    have := List.mem_of_mem_filter hm
    revert this
    decide
  have hxa : x ∈ av := by
    rw [hav]
    exact List.mem_filter.mpr ⟨hxfc, decide_eq_true hx3⟩
  have hxne : x ≠ "fact_id" := by
    intro he
    subst he
    revert hxfc
    decide
  have hcol := column_setColumn_fresh (selectColumns (cssS3 df).1 av) "fact_id"
    ((List.range (selectColumns (cssS3 df).1 av).rows.length).map
      (fun i => Value.num (Int.ofNat i + 1))) x hfid
    (wf_selectColumns (cssS3 df).1 av) (by simp [selectColumns])
  rw [hcol, if_neg hxne]
  exact column_selectColumns (cssS3 df).1 av x hxa

theorem fact_column_hoid (df : DataFrame) (hw : wf df = true) (hyg : hygienic df = true)
    (h1 : "home_ownership" ∈ df.cols) :
    column (create_star_schema df).1 "home_ownership_id" =
      (column df "home_ownership").map (fun v =>
        ((dimMap (mkDim df "home_ownership" "home_ownership_id")
          "home_ownership" "home_ownership_id") v).getD Value.na) := by
  rw [fact_column_of_s3 df _ (by decide) (s3_hoid_mem df hyg h1)]
  exact s3_column_hoid df hw hyg h1

theorem fact_column_lsid (df : DataFrame) (hw : wf df = true) (hyg : hygienic df = true)
    (h2 : "loan_status" ∈ df.cols) :
    column (create_star_schema df).1 "loan_status_id" =
      (column df "loan_status").map (fun v =>
        ((dimMap (mkDim df "loan_status" "loan_status_id")
          "loan_status" "loan_status_id") v).getD Value.na) := by
  rw [fact_column_of_s3 df _ (by decide) (s3_lsid_mem df hyg h2)]
  exact s3_column_lsid df hw hyg h2

theorem fact_column_did (df : DataFrame) (hw : wf df = true) (hyg : hygienic df = true)
    (h3 : "issue_d" ∈ df.cols) :
    column (create_star_schema df).1 "issue_d_id" =
      (column df "issue_d").map (fun v =>
        ((dimMap (mkDateDim df "issue_d" "issue_d_id") "issue_d" "issue_d_id") v).getD
          Value.na) := by
  rw [fact_column_of_s3 df _ (by decide) (s3_did_mem df hyg h3)]
  exact s3_column_did df hw hyg h3

theorem dims_mem_ho (df : DataFrame) (h1 : "home_ownership" ∈ df.cols) :
    ("home_ownership_dim_yourname", mkDim df "home_ownership" "home_ownership_id") ∈
      (create_star_schema df).2 := by
  rw [create_star_schema_snd]
  apply addDimension_dims_mono
  apply addDimension_dims_mono
  simp only [cssS1]
  rw [addDimension_pos df df [] _ _ _ _ h1]
  simp

theorem dims_mem_ls (df : DataFrame) (h2 : "loan_status" ∈ df.cols) :
    ("loan_status_dim_yourname", mkDim df "loan_status" "loan_status_id") ∈
      (create_star_schema df).2 := by
  rw [create_star_schema_snd]
  apply addDimension_dims_mono
  simp only [cssS2]
  rw [addDimension_pos df (cssS1 df).1 (cssS1 df).2 _ _ _ _ h2]
  simp

theorem dims_mem_isd (df : DataFrame) (h3 : "issue_d" ∈ df.cols) :
    ("issue_d_dim_yourname", mkDateDim df "issue_d" "issue_d_id") ∈
      (create_star_schema df).2 := by
  rw [create_star_schema_snd]
  simp only [cssS3]
  rw [addDimension_pos df (cssS2 df).1 (cssS2 df).2 _ _ _ _ h3]
  simp

theorem fact_rows_length (df : DataFrame) :
    (create_star_schema df).1.rows.length = df.rows.length := by
  rw [create_star_schema_fst, setColumn_rows_length]
  simp [selectColumns_rows_length, cssS3_rows_length]

theorem fact_id_column (df : DataFrame) :
    column (create_star_schema df).1 "fact_id" =
      (List.range df.rows.length).map (fun i => Value.num (Int.ofNat i + 1)) := by
  rw [create_star_schema_fst]
  set av := fact_columns.filter (fun c => decide (c ∈ (cssS3 df).1.cols)) with hav
  have hfid : "fact_id" ∉ av := by
    rw [hav]
    intro hm
    have := List.mem_of_mem_filter hm
    revert this
    decide
  have hcol := column_setColumn_fresh (selectColumns (cssS3 df).1 av) "fact_id"
    ((List.range (selectColumns (cssS3 df).1 av).rows.length).map
      (fun i => Value.num (Int.ofNat i + 1))) "fact_id" hfid
    (wf_selectColumns (cssS3 df).1 av) (by simp [selectColumns])
  rw [hcol, if_pos rfl, selectColumns_rows_length, cssS3_rows_length]

theorem range_key_shift (n : Nat) :
    (List.range n).map (fun i => Value.num (Int.ofNat (1 + i))) =
      (List.range n).map (fun i => Value.num (Int.ofNat i + 1)) := by
  refine List.map_congr_left ?_
  intro i _
  have : Int.ofNat (1 + i) = Int.ofNat i + 1 := by
    simp only [Int.ofNat_eq_natCast]
    push_cast
    ring
  rw [this]

theorem dim_column_val_generic (c cid : String) (rest : List String)
    (e : Value → List Value) (dl : List Value) :
    column ⟨c :: cid :: rest, dimRows e 1 dl⟩ c = dl := by
  simp only [column]
  have h1 : (dimRows e 1 dl).map (fun r => cell (c :: cid :: rest) r c) =
      (dimRows e 1 dl).map (fun r => r.getD 0 Value.na) :=
    List.map_congr_left (fun r _ => cell_head c (cid :: rest) r)
  rw [h1, dimRows_map_val]

theorem dim_column_key_generic (c cid : String) (rest : List String) (hne : c ≠ cid)
    (e : Value → List Value) (dl : List Value) :
    column ⟨c :: cid :: rest, dimRows e 1 dl⟩ cid =
      (List.range dl.length).map (fun i => Value.num (Int.ofNat i + 1)) := by
  simp only [column]
  have h1 : (dimRows e 1 dl).map (fun r => cell (c :: cid :: rest) r cid) =
      (dimRows e 1 dl).map (fun r => r.getD 1 Value.na) :=
    List.map_congr_left (fun r _ => cell_second c cid rest r hne)
  rw [h1, dimRows_map_head]
  have h2 : (List.range dl.length).map (fun i => Value.num (Int.ofNat (1 + i))) =
      (List.range dl.length).map (fun i => Value.num (Int.ofNat i + 1)) :=
    range_key_shift dl.length
  exact h2

theorem cell_row_column (a : DataFrame) (x : String) (i : Nat) (hi : i < a.rows.length) :
    (column a x).getD i Value.na = cell a.cols (a.rows.getD i []) x := by
  simp only [column]
  exact getD_map_lt (fun r => cell a.cols r x) a.rows i [] Value.na hi

theorem column_length (a : DataFrame) (x : String) :
    (column a x).length = a.rows.length := by
  simp [column]

theorem roundtrip_generic (df : DataFrame) (c cid : String) (rest : List String)
    (hne : c ≠ cid) (e : Value → List Value) (i : Nat) (hi : i < df.rows.length)
    (hcol : column (create_star_schema df).1 cid =
      (column df c).map (fun v =>
        ((dimMap ⟨c :: cid :: rest, dimRows e 1 (dedupFirst (column df c))⟩ c cid) v).getD
          Value.na)) :
    (∃ r0, r0 ∈ dimRows e 1 (dedupFirst (column df c)) ∧
       cell (c :: cid :: rest) r0 cid =
         cell (create_star_schema df).1.cols
           ((create_star_schema df).1.rows.getD i []) cid ∧
       cell (c :: cid :: rest) r0 c = cell df.cols (df.rows.getD i []) c) ∧
    (∀ r2, r2 ∈ dimRows e 1 (dedupFirst (column df c)) →
       cell (c :: cid :: rest) r2 cid =
         cell (create_star_schema df).1.cols
           ((create_star_schema df).1.rows.getD i []) cid →
       cell (c :: cid :: rest) r2 c = cell df.cols (df.rows.getD i []) c) := by
  have hFlen : i < (create_star_schema df).1.rows.length := by
    rw [fact_rows_length]
    exact hi
  have hfact : cell (create_star_schema df).1.cols
      ((create_star_schema df).1.rows.getD i []) cid =
      (column (create_star_schema df).1 cid).getD i Value.na :=
    (cell_row_column _ cid i hFlen).symm
  have hlcol : i < (column df c).length := by
    rw [column_length]
    exact hi
  have hmap : (column (create_star_schema df).1 cid).getD i Value.na =
      ((dimMap ⟨c :: cid :: rest, dimRows e 1 (dedupFirst (column df c))⟩ c cid)
        ((column df c).getD i Value.na)).getD Value.na := by
    rw [hcol]
    exact getD_map_lt _ _ i Value.na Value.na hlcol
  have hvdf : (column df c).getD i Value.na = cell df.cols (df.rows.getD i []) c :=
    cell_row_column df c i hi
  have hvmem : (column df c).getD i Value.na ∈ column df c :=
    getD_mem_lt _ i Value.na hlcol
  have hvdd : (column df c).getD i Value.na ∈ dedupFirst (column df c) :=
    (mem_dedupFirst _ _).mpr hvmem
  obtain ⟨r0, hr0mem, hr0c, hr0map, _⟩ :=
    dimMap_lookup c cid rest hne e (dedupFirst (column df c))
      ((column df c).getD i Value.na) hvdd
  have hkey : cell (c :: cid :: rest) r0 cid =
      cell (create_star_schema df).1.cols
        ((create_star_schema df).1.rows.getD i []) cid := by
    rw [hfact, hmap, hr0map]
    rfl
  constructor
  · exact ⟨r0, hr0mem, hkey, by rw [hr0c, hvdf]⟩
  · intro r2 hr2 hkey2
    have hr2r0 : r2 = r0 :=
      dimRows_key_inj c cid rest hne e (dedupFirst (column df c)) r2 hr2 r0 hr0mem
        (by rw [hkey2, hkey])
    rw [hr2r0, hr0c, hvdf]

theorem keytotal_generic (df : DataFrame) (c cid : String) (rest : List String)
    (hne : c ≠ cid) (e : Value → List Value)
    (hcol : column (create_star_schema df).1 cid =
      (column df c).map (fun v =>
        ((dimMap ⟨c :: cid :: rest, dimRows e 1 (dedupFirst (column df c))⟩ c cid) v).getD
          Value.na)) :
    (∀ v, v ∈ column df c → ∃ kk : Int,
        dimMap ⟨c :: cid :: rest, dimRows e 1 (dedupFirst (column df c))⟩ c cid v =
          some (Value.num kk)) ∧
    (column (create_star_schema df).1 cid).all (fun u => !u.isNA) = true := by
  have htot : ∀ v, v ∈ column df c → ∃ kk : Int,
      dimMap ⟨c :: cid :: rest, dimRows e 1 (dedupFirst (column df c))⟩ c cid v =
        some (Value.num kk) := by
    intro v hv
    have hvdd : v ∈ dedupFirst (column df c) := (mem_dedupFirst _ _).mpr hv
    obtain ⟨r0, _, _, hr0map, kk, hkk⟩ :=
      dimMap_lookup c cid rest hne e (dedupFirst (column df c)) v hvdd
    exact ⟨kk, by rw [hr0map, hkk]⟩
  refine ⟨htot, ?_⟩
  rw [hcol, List.all_eq_true]
  intro u hu
  obtain ⟨v, hv, hvu⟩ := List.mem_map.mp hu
  obtain ⟨kk, hkk⟩ := htot v hv
  rw [← hvu, hkk]
  rfl

/-- Claim C1's property for one candidate dimension column: the dimension
table registered under `nm` holds exactly the distinct values of column
`c` of the input, without duplicates, ordered by first occurrence, and
its key column is the contiguous sequence `1..n` where `n` is the number
of distinct values of the column. -/
def dimTableOk (df : DataFrame) (c cid nm : String) : Prop :=
  ∃ dim, (nm, dim) ∈ (create_star_schema df).2 ∧
    (column dim c).Nodup ∧
    (∀ v, v ∈ column dim c ↔ v ∈ column df c) ∧
    (column dim c).Pairwise
      (fun a b => firstIdx (column df c) a < firstIdx (column df c) b) ∧
    (column dim c).length = (column df c).toFinset.card ∧
    column dim cid =
      (List.range (column dim c).length).map (fun i => Value.num (Int.ofNat i + 1))

theorem dimTableOk_of (df : DataFrame) (c cid nm : String) (hne : c ≠ cid)
    (rest : List String) (e : Value → List Value)
    (hmem : (nm, (⟨c :: cid :: rest, dimRows e 1 (dedupFirst (column df c))⟩ : DataFrame)) ∈
      (create_star_schema df).2) :
    dimTableOk df c cid nm := by
  refine ⟨⟨c :: cid :: rest, dimRows e 1 (dedupFirst (column df c))⟩, hmem, ?_, ?_, ?_, ?_, ?_⟩
  · rw [dim_column_val_generic]
    exact nodup_dedupFirst _
  · intro v
    rw [dim_column_val_generic]
    exact mem_dedupFirst v _
  · rw [dim_column_val_generic]
    exact pairwise_firstIdx_dedupFirst _
  · rw [dim_column_val_generic]
    exact length_dedupFirst _
  · rw [dim_column_val_generic]
    exact dim_column_key_generic c cid rest hne e _

/-- C1: for each candidate dimension column (`home_ownership`,
`loan_status`, `issue_d`) present in the cleaned table, the star-schema
builder produces a dimension table holding exactly its distinct values in
first-occurrence order, keyed by the contiguous surrogate keys `1..n`,
`n` being the number of distinct values of that column. -/
theorem claim_C1_dimension_tables (df : DataFrame) :
    ("home_ownership" ∈ df.cols →
      dimTableOk df "home_ownership" "home_ownership_id" "home_ownership_dim_yourname") ∧
    ("loan_status" ∈ df.cols →
      dimTableOk df "loan_status" "loan_status_id" "loan_status_dim_yourname") ∧
    ("issue_d" ∈ df.cols →
      dimTableOk df "issue_d" "issue_d_id" "issue_d_dim_yourname") := by
  refine ⟨?_, ?_, ?_⟩
  · intro h1
    exact dimTableOk_of df _ _ _ (by decide) [] noExtra (dims_mem_ho df h1)
  · intro h2
    exact dimTableOk_of df _ _ _ (by decide) [] noExtra (dims_mem_ls df h2)
  · intro h3
    exact dimTableOk_of df _ _ _ (by decide) ["month", "year", "quarter"] dateExtra
      (dims_mem_isd df h3)

/-- Witness for C1 at the worked example of the specification. -/
theorem claim_C1_dimension_tables_witness :
    dimTableOk exDF "home_ownership" "home_ownership_id" "home_ownership_dim_yourname" ∧
    dimTableOk exDF "loan_status" "loan_status_id" "loan_status_dim_yourname" ∧
    dimTableOk exDF "issue_d" "issue_d_id" "issue_d_dim_yourname" :=
  ⟨(claim_C1_dimension_tables exDF).1 (by decide),
   (claim_C1_dimension_tables exDF).2.1 (by decide),
   (claim_C1_dimension_tables exDF).2.2 (by decide)⟩

/-- Claim C2's property for one dimension: the dimension-key cell of fact
row `i` resolves through the dimension table registered under `nm` to
exactly the value the matching input row had in the source column `c`. -/
def roundTrips (df : DataFrame) (i : Nat) (c cid nm : String) : Prop :=
  ∃ dim, (nm, dim) ∈ (create_star_schema df).2 ∧
    (∃ r0, r0 ∈ dim.rows ∧
      cell dim.cols r0 cid =
        cell (create_star_schema df).1.cols
          ((create_star_schema df).1.rows.getD i []) cid ∧
      cell dim.cols r0 c = cell df.cols (df.rows.getD i []) c) ∧
    (∀ r2, r2 ∈ dim.rows →
      cell dim.cols r2 cid =
        cell (create_star_schema df).1.cols
          ((create_star_schema df).1.rows.getD i []) cid →
      cell dim.cols r2 c = cell df.cols (df.rows.getD i []) c)

theorem roundTrips_of (df : DataFrame) (c cid nm : String) (hne : c ≠ cid)
    (rest : List String) (e : Value → List Value) (i : Nat) (hi : i < df.rows.length)
    (hcol : column (create_star_schema df).1 cid =
      (column df c).map (fun v =>
        ((dimMap ⟨c :: cid :: rest, dimRows e 1 (dedupFirst (column df c))⟩ c cid) v).getD
          Value.na))
    (hmem : (nm, (⟨c :: cid :: rest, dimRows e 1 (dedupFirst (column df c))⟩ : DataFrame)) ∈
      (create_star_schema df).2) :
    roundTrips df i c cid nm := by
  obtain ⟨hex, huniq⟩ := roundtrip_generic df c cid rest hne e i hi hcol
  exact ⟨⟨c :: cid :: rest, dimRows e 1 (dedupFirst (column df c))⟩, hmem, hex, huniq⟩

/-- C2: for every fact row and every dimension built from a column present
in the input, looking the row's dimension-key value up in that dimension
table yields exactly the original value of the matching cleaned-table
row (and every dimension row carrying that key holds that value). -/
theorem claim_C2_roundtrip (df : DataFrame) (hw : wf df = true)
    (hyg : hygienic df = true) (i : Nat) (hi : i < df.rows.length) :
    ("home_ownership" ∈ df.cols →
      roundTrips df i "home_ownership" "home_ownership_id" "home_ownership_dim_yourname") ∧
    ("loan_status" ∈ df.cols →
      roundTrips df i "loan_status" "loan_status_id" "loan_status_dim_yourname") ∧
    ("issue_d" ∈ df.cols →
      roundTrips df i "issue_d" "issue_d_id" "issue_d_dim_yourname") := by
  refine ⟨?_, ?_, ?_⟩
  · intro h1
    exact roundTrips_of df _ _ _ (by decide) [] noExtra i hi
      (fact_column_hoid df hw hyg h1) (dims_mem_ho df h1)
  · intro h2
    exact roundTrips_of df _ _ _ (by decide) [] noExtra i hi
      (fact_column_lsid df hw hyg h2) (dims_mem_ls df h2)
  · intro h3
    exact roundTrips_of df _ _ _ (by decide) ["month", "year", "quarter"] dateExtra i hi
      (fact_column_did df hw hyg h3) (dims_mem_isd df h3)

/-- Witness for C2 at the worked example of the specification, row 0. -/
theorem claim_C2_roundtrip_witness :
    roundTrips exDF 0 "home_ownership" "home_ownership_id" "home_ownership_dim_yourname" ∧
    roundTrips exDF 0 "loan_status" "loan_status_id" "loan_status_dim_yourname" ∧
    roundTrips exDF 0 "issue_d" "issue_d_id" "issue_d_dim_yourname" :=
  ⟨(claim_C2_roundtrip exDF (by decide) (by decide) 0 (by decide)).1 (by decide),
   (claim_C2_roundtrip exDF (by decide) (by decide) 0 (by decide)).2.1 (by decide),
   (claim_C2_roundtrip exDF (by decide) (by decide) 0 (by decide)).2.2 (by decide)⟩

theorem fact_id_fun_inj : Function.Injective (fun i => Value.num (Int.ofNat i + 1)) := by
  intro a b h
  dsimp only at h
  injection h with h2
  have h3 : Int.ofNat a = Int.ofNat b := by
    exact add_right_cancel h2
  have h4 := Int.ofNat.inj h3
  exact h4

/-- C3: the fact table has exactly one row per input row, and its
`fact_id` column is the contiguous sequence `1..n` with no duplicates;
in particular this holds for the cleaned table produced by the row
completeness filter. -/
theorem claim_C3_fact_ids (df : DataFrame) :
    (create_star_schema df).1.rows.length = df.rows.length ∧
    (create_star_schema (dropna df)).1.rows.length = (dropna df).rows.length ∧
    column (create_star_schema df).1 "fact_id" =
      (List.range df.rows.length).map (fun i => Value.num (Int.ofNat i + 1)) ∧
    (column (create_star_schema df).1 "fact_id").Nodup := by
  refine ⟨fact_rows_length df, fact_rows_length (dropna df), fact_id_column df, ?_⟩
  rw [fact_id_column]
  exact (List.nodup_range _).map fact_id_fun_inj

/-- C4: the row completeness filter keeps the columns, returns a subset
of the input rows (so at most as many rows), and its output has no
missing cell. -/
theorem claim_C4_dropna (df : DataFrame) :
    (dropna df).cols = df.cols ∧
    (dropna df).rows.Sublist df.rows ∧
    (dropna df).rows.length ≤ df.rows.length ∧
    (dropna df).rows.all (fun r => !r.any Value.isNA) = true := by
  refine ⟨rfl, List.filter_sublist df.rows, (List.filter_sublist df.rows).length_le, ?_⟩
  rw [List.all_eq_true]
  intro r hr
  exact (List.mem_filter.mp hr).2

/-- Claim C7's property for one dimension: every value of the source
column is in the domain of the value-to-key lookup of the dimension
registered under `nm` (mapping to a numeric key), so the fact table's
key column contains no unmapped marker. -/
def keysTotal (df : DataFrame) (c cid nm : String) : Prop :=
  ∃ dim, (nm, dim) ∈ (create_star_schema df).2 ∧
    (∀ v, v ∈ column df c → ∃ kk : Int, dimMap dim c cid v = some (Value.num kk)) ∧
    (column (create_star_schema df).1 cid).all (fun u => !u.isNA) = true

theorem keysTotal_of (df : DataFrame) (c cid nm : String) (hne : c ≠ cid)
    (rest : List String) (e : Value → List Value)
    (hcol : column (create_star_schema df).1 cid =
      (column df c).map (fun v =>
        ((dimMap ⟨c :: cid :: rest, dimRows e 1 (dedupFirst (column df c))⟩ c cid) v).getD
          Value.na))
    (hmem : (nm, (⟨c :: cid :: rest, dimRows e 1 (dedupFirst (column df c))⟩ : DataFrame)) ∈
      (create_star_schema df).2) :
    keysTotal df c cid nm := by
  obtain ⟨htot, hall⟩ := keytotal_generic df c cid rest hne e hcol
  exact ⟨⟨c :: cid :: rest, dimRows e 1 (dedupFirst (column df c))⟩, hmem, htot, hall⟩

/-- C7: a value missing from the lookup is mapped to the explicit
unmapped marker `NaN`, and for every input this case is unreachable for
the built dimensions: every source-column value is in the lookup's
domain, so fact key columns never contain the marker. -/
theorem claim_C7_no_unmapped (df : DataFrame) (hw : wf df = true)
    (hyg : hygienic df = true) :
    (∀ (a : DataFrame) (src dst : String) (m : Value → Option Value) (v : Value),
      dst ∉ a.cols → wf a = true → v ∈ column a src → m v = none →
        Value.na ∈ column (mapColumn a src dst m) dst) ∧
    ("home_ownership" ∈ df.cols →
      keysTotal df "home_ownership" "home_ownership_id" "home_ownership_dim_yourname") ∧
    ("loan_status" ∈ df.cols →
      keysTotal df "loan_status" "loan_status_id" "loan_status_dim_yourname") ∧
    ("issue_d" ∈ df.cols →
      keysTotal df "issue_d" "issue_d_id" "issue_d_dim_yourname") := by
  refine ⟨?_, ?_, ?_, ?_⟩
  · intro a src dst m v hdst hwa hv hnone
    rw [column_mapColumn_fresh a src dst m dst hdst hwa, if_pos rfl]
    refine List.mem_map.mpr ⟨v, hv, ?_⟩
    rw [hnone]
    rfl
  · intro h1
    exact keysTotal_of df _ _ _ (by decide) [] noExtra
      (fact_column_hoid df hw hyg h1) (dims_mem_ho df h1)
  · intro h2
    exact keysTotal_of df _ _ _ (by decide) [] noExtra
      (fact_column_lsid df hw hyg h2) (dims_mem_ls df h2)
  · intro h3
    exact keysTotal_of df _ _ _ (by decide) ["month", "year", "quarter"] dateExtra
      (fact_column_did df hw hyg h3) (dims_mem_isd df h3)

/-- Witness for C7 at the worked example of the specification. -/
theorem claim_C7_no_unmapped_witness :
    keysTotal exDF "home_ownership" "home_ownership_id" "home_ownership_dim_yourname" ∧
    keysTotal exDF "loan_status" "loan_status_id" "loan_status_dim_yourname" ∧
    keysTotal exDF "issue_d" "issue_d_id" "issue_d_dim_yourname" :=
  ⟨(claim_C7_no_unmapped exDF (by decide) (by decide)).2.1 (by decide),
   (claim_C7_no_unmapped exDF (by decide) (by decide)).2.2.1 (by decide),
   (claim_C7_no_unmapped exDF (by decide) (by decide)).2.2.2 (by decide)⟩

/-- C8: in the issue-date dimension, every row's derived month lies in
`[1, 12]`, its derived quarter in `[1, 4]`, and its derived year is the
calendar year of the row's date value, provided the input column holds
valid dates. -/
theorem claim_C8_date_decomposition (df : DataFrame) (h3 : "issue_d" ∈ df.cols)
    (hdates : ∀ v ∈ column df "issue_d",
      ∃ d : Date, v = Value.date d ∧ 1 ≤ d.month ∧ d.month ≤ 12) :
    ∃ dim, ("issue_d_dim_yourname", dim) ∈ (create_star_schema df).2 ∧
      ∀ r ∈ dim.rows, ∃ d : Date,
        cell dim.cols r "issue_d" = Value.date d ∧
        cell dim.cols r "month" = Value.num (Int.ofNat d.month) ∧
        1 ≤ d.month ∧ d.month ≤ 12 ∧
        cell dim.cols r "quarter" = Value.num (Int.ofNat ((d.month - 1) / 3 + 1)) ∧
        1 ≤ (d.month - 1) / 3 + 1 ∧ (d.month - 1) / 3 + 1 ≤ 4 ∧
        cell dim.cols r "year" = Value.num d.year := by
  refine ⟨mkDateDim df "issue_d" "issue_d_id", dims_mem_isd df h3, ?_⟩
  intro r hr
  obtain ⟨v, kk, hvdl, hshape⟩ :=
    dimRows_mem_shape dateExtra (dedupFirst (column df "issue_d")) 1 r hr
  have hvcol : v ∈ column df "issue_d" := (mem_dedupFirst v _).mp hvdl
  obtain ⟨d, hd, hm1, hm2⟩ := hdates v hvcol
  subst hd
  refine ⟨d, ?_, ?_, hm1, hm2, ?_, by omega, by omega, ?_⟩
  · rw [hshape]
    rfl
  · rw [hshape]
    rfl
  · rw [hshape]
    rfl
  · rw [hshape]
    rfl

/-- Witness for C8 at the worked example of the specification. -/
theorem claim_C8_date_decomposition_witness :
    ∃ dim, ("issue_d_dim_yourname", dim) ∈ (create_star_schema exDF).2 ∧
      ∀ r ∈ dim.rows, ∃ d : Date,
        cell dim.cols r "issue_d" = Value.date d ∧
        cell dim.cols r "month" = Value.num (Int.ofNat d.month) ∧
        1 ≤ d.month ∧ d.month ≤ 12 ∧
        cell dim.cols r "quarter" = Value.num (Int.ofNat ((d.month - 1) / 3 + 1)) ∧
        1 ≤ (d.month - 1) / 3 + 1 ∧ (d.month - 1) / 3 + 1 ≤ 4 ∧
        cell dim.cols r "year" = Value.num d.year := by
  refine claim_C8_date_decomposition exDF (by decide) ?_
  intro v hv
  have hcol : column exDF "issue_d" =
      [Value.date ⟨2018, 1, 1⟩, Value.date ⟨2018, 1, 1⟩, Value.date ⟨2018, 4, 1⟩] := by
    decide
  rw [hcol] at hv
  have hv2 : v = Value.date ⟨2018, 1, 1⟩ ∨ v = Value.date ⟨2018, 4, 1⟩ := by
    simpa using hv
  rcases hv2 with h | h
  · exact ⟨⟨2018, 1, 1⟩, h, by decide, by decide⟩
  · exact ⟨⟨2018, 4, 1⟩, h, by decide, by decide⟩

/-- C10: the star-schema builder is deterministic: equal input tables
give equal fact tables and equal dimension-table mappings. -/
theorem claim_C10_deterministic (df1 df2 : DataFrame) (h : df1 = df2) :
    (create_star_schema df1).1 = (create_star_schema df2).1 ∧
    (create_star_schema df1).2 = (create_star_schema df2).2 := by
  subst h
  exact ⟨rfl, rfl⟩

/-- Witness for C10 at the worked example of the specification. -/
theorem claim_C10_deterministic_witness :
    (create_star_schema exDF).1 = (create_star_schema exDF).1 ∧
    (create_star_schema exDF).2 = (create_star_schema exDF).2 :=
  claim_C10_deterministic exDF exDF rfl

/-- The store after a sequence of replace-writes. -/
def writeFold (s : Store) (l : List (String × DataFrame)) : Store :=
  l.foldl (fun s2 p => replaceTable s2 p.1 p.2) s

theorem writeFold_cons (s : Store) (p : String × DataFrame) (l : List (String × DataFrame)) :
    writeFold s (p :: l) = writeFold (replaceTable s p.1 p.2) l := rfl

theorem deployDims_stops :
    ∀ (d : List (String × DataFrame)) (k idx : Nat) (s : Store), k < d.length →
      deployDims (some (idx + k)) idx s d = (writeFold s (d.take k), idx + k, false) := by
  intro d
  induction d with
  | nil => intro k idx s hk; simp at hk
  | cons q rest ih =>
    intro k idx s hk
    cases k with
    | zero =>
      simp [deployDims, writeFold]
    | succ k2 =>
      have hcond : ¬(some (idx + (k2 + 1)) = some idx) := by
        simp only [Option.some.injEq]
        omega
      have harith : idx + (k2 + 1) = (idx + 1) + k2 := by omega
      rw [List.take_succ_cons, writeFold_cons]
      simp only [deployDims, if_neg hcond]
      rw [harith]
      exact ih k2 (idx + 1) (replaceTable s q.1 q.2) (by simpa using hk)

theorem find?_append_all_false {α : Type} (p : α → Bool) :
    ∀ (l1 l2 : List α), (∀ x ∈ l1, p x = false) → (l1 ++ l2).find? p = l2.find? p := by
  intro l1
  induction l1 with
  | nil => intro l2 _; rfl
  | cons y ys ih =>
    intro l2 hall
    rw [List.cons_append, List.find?_cons_of_neg _ (by simp [hall y (by simp)])]
    exact ih l2 (fun x hx => hall x (by simp [hx]))

theorem find?_append_last_false {α : Type} (p : α → Bool) (x : α) (hx : p x = false) :
    ∀ (l : List α), (l ++ [x]).find? p = l.find? p := by
  intro l
  induction l with
  | nil => simp [List.find?, hx]
  | cons y ys ih =>
    by_cases hy : p y = true
    · rw [List.cons_append, List.find?_cons_of_pos _ hy, List.find?_cons_of_pos _ hy]
    · rw [List.cons_append, List.find?_cons_of_neg _ (by simpa using hy),
        List.find?_cons_of_neg _ (by simpa using hy)]
      exact ih

theorem find?_filter_keep {α : Type} (p q : α → Bool) (h : ∀ x, p x = true → q x = true) :
    ∀ (l : List α), (l.filter q).find? p = l.find? p := by
  intro l
  induction l with
  | nil => rfl
  | cons y ys ih =>
    by_cases hq : q y = true
    · rw [List.filter_cons_of_pos hq]
      by_cases hp : p y = true
      · rw [List.find?_cons_of_pos _ hp, List.find?_cons_of_pos _ hp]
      · rw [List.find?_cons_of_neg _ (by simpa using hp),
          List.find?_cons_of_neg _ (by simpa using hp)]
        exact ih
    · rw [List.filter_cons_of_neg (by simpa using hq)]
      have hp : p y = false := by
        cases hpy : p y
        · rfl
        · exact absurd (h y hpy) hq
      rw [List.find?_cons_of_neg _ (by simp [hp])]
      exact ih

theorem find?_replaceTable_self (s : Store) (n : String) (d : DataFrame) :
    (replaceTable s n d).find? (fun p => decide (p.1 = n)) = some (n, d) := by
  unfold replaceTable
  rw [find?_append_all_false _ _ _ ?hall]
  case hall =>
    intro x hx
    have hx2 := (List.mem_filter.mp hx).2
    simp only [decide_eq_true_iff] at hx2
    simp [hx2]
  rw [List.find?_cons_of_pos _ (by simp)]

theorem find?_replaceTable_other (s : Store) (n m : String) (d : DataFrame) (hm : m ≠ n) :
    (replaceTable s n d).find? (fun p => decide (p.1 = m)) =
      s.find? (fun p => decide (p.1 = m)) := by
  unfold replaceTable
  have hlast : (fun p : String × DataFrame => decide (p.1 = m)) (n, d) = false := by
    simp only [decide_eq_false_iff_not]
    exact fun h => hm h.symm
  rw [find?_append_last_false (fun p : String × DataFrame => decide (p.1 = m)) (n, d) hlast
    (s.filter (fun p => decide (p.1 ≠ n)))]
  refine find?_filter_keep _ _ ?_ s
  intro x hx
  simp only [decide_eq_true_iff] at hx ⊢
  rw [hx]
  exact hm

theorem writeFold_find?_untouched (name : String) :
    ∀ (l : List (String × DataFrame)) (s : Store), name ∉ l.map Prod.fst →
      (writeFold s l).find? (fun p => decide (p.1 = name)) =
        s.find? (fun p => decide (p.1 = name)) := by
  intro l
  induction l with
  | nil => intro s _; rfl
  | cons q rest ih =>
    intro s hn
    have hn1 : name ≠ q.1 := by
      intro h
      exact hn (by simp [h])
    have hn2 : name ∉ rest.map Prod.fst := by
      intro h
      exact hn (by simp [h])
    rw [writeFold_cons, ih _ hn2]
    exact find?_replaceTable_other s q.1 name q.2 hn1

theorem writeFold_find?_written :
    ∀ (l : List (String × DataFrame)) (s : Store) (j : Nat),
      (l.map Prod.fst).Nodup → j < l.length →
      (writeFold s l).find? (fun p => decide (p.1 = (l.getD j ("", emptyDF)).1)) =
        some (l.getD j ("", emptyDF)) := by
  intro l
  induction l with
  | nil => intro s j _ hj; simp at hj
  | cons q rest ih =>
    intro s j hnd hj
    have hnd2 : (q.1 :: rest.map Prod.fst).Nodup := by
      rw [List.map_cons] at hnd
      exact hnd
    cases j with
    | zero =>
      have hq1 : q.1 ∉ rest.map Prod.fst := (List.nodup_cons.mp hnd2).1
      rw [writeFold_cons]
      have hgd : ((q :: rest).getD 0 ("", emptyDF)) = q := rfl
      rw [hgd, writeFold_find?_untouched q.1 rest _ hq1]
      exact find?_replaceTable_self s q.1 q.2
    | succ j2 =>
      have hgd : ((q :: rest).getD (j2 + 1) ("", emptyDF)) = rest.getD j2 ("", emptyDF) := rfl
      rw [hgd, writeFold_cons]
      exact ih _ j2 (List.nodup_cons.mp hnd2).2 (by simpa using hj)

theorem getD_take_lt {α : Type} :
    ∀ (l : List α) (k j : Nat) (d : α), j < k → (l.take k).getD j d = l.getD j d := by
  intro l
  induction l with
  | nil => intro k j d _; simp
  | cons x xs ih =>
    intro k j d hj
    cases k with
    | zero => simp at hj
    | succ k2 =>
      cases j with
      | zero => rfl
      | succ j2 => simpa using ih k2 j2 d (by omega)

/-- C5: any exception in the deployment body surfaces as a boolean
failure of `deploy_to_database`, the store is left exactly as the body
reached it (no rollback), and a requested failing deployment makes the
process exit code 1; in particular a write failure after `k` successful
dimension writes leaves those `k` tables in the store. -/
theorem claim_C5_deploy_errors (eng : Engine) (fact : DataFrame)
    (dims : List (String × DataFrame)) :
    (∀ msg, (deployBody eng fact dims).1 = Except.error msg →
      deploy_to_database eng fact dims = (false, (deployBody eng fact dims).2) ∧
      mainDeployTail true eng fact dims = false ∧
      exitCode (mainDeployTail true eng fact dims) = 1) ∧
    (∀ k, eng.connectFails = false → eng.writeFailsAt = some k → k < dims.length →
      (dims.map Prod.fst).Nodup →
      (deploy_to_database eng fact dims).1 = false ∧
      ∀ j, j < k →
        (deploy_to_database eng fact dims).2.find?
            (fun p => decide (p.1 = (dims.getD j ("", emptyDF)).1)) =
          some (dims.getD j ("", emptyDF))) := by
  constructor
  · intro msg herr
    have hd : deploy_to_database eng fact dims = (false, (deployBody eng fact dims).2) := by
      unfold deploy_to_database
      rcases hbody : deployBody eng fact dims with ⟨res, s⟩
      rw [hbody] at herr
      simp only at herr
      rw [herr]
    have hm : mainDeployTail true eng fact dims = false := by
      unfold mainDeployTail
      rw [if_pos rfl, hd]
    exact ⟨hd, hm, by rw [hm]; rfl⟩
  · intro k hc hwk hk hnd
    have hdd : deployDims (some k) 0 eng.tables0 dims =
        (writeFold eng.tables0 (dims.take k), k, false) := by
      have := deployDims_stops dims k 0 eng.tables0 hk
      simpa using this
    have hbody : deployBody eng fact dims =
        (Except.error "write failed", writeFold eng.tables0 (dims.take k)) := by
      unfold deployBody
      rw [hc, hwk, hdd]
      simp
    have hdep : deploy_to_database eng fact dims =
        (false, writeFold eng.tables0 (dims.take k)) := by
      unfold deploy_to_database
      rw [hbody]
    refine ⟨by rw [hdep], ?_⟩
    intro j hj
    rw [hdep]
    have hnd2 : ((dims.take k).map Prod.fst).Nodup := by
      rw [List.map_take]
      exact ((dims.map Prod.fst).take_sublist k).nodup hnd
    have hjk : j < (dims.take k).length := by
      rw [List.length_take]
      omega
    have hw := writeFold_find?_written (dims.take k) eng.tables0 j hnd2 hjk
    rw [getD_take_lt dims k j ("", emptyDF) hj] at hw
    exact hw

/-- Witness for C5: a failing connection surfaces as a boolean failure
with exit code 1, and a write failure at call 1 leaves the first
dimension table written. -/
theorem claim_C5_deploy_errors_witness :
    (deploy_to_database ⟨true, none, []⟩ exDF [] =
        (false, (deployBody ⟨true, none, []⟩ exDF []).2) ∧
      mainDeployTail true ⟨true, none, []⟩ exDF [] = false ∧
      exitCode (mainDeployTail true ⟨true, none, []⟩ exDF []) = 1) ∧
    ((deploy_to_database ⟨false, some 1, []⟩ exDF
        [("dim_a", exDF), ("dim_b", emptyDF)]).1 = false ∧
      ∀ j, j < 1 →
        (deploy_to_database ⟨false, some 1, []⟩ exDF
            [("dim_a", exDF), ("dim_b", emptyDF)]).2.find?
            (fun p => decide (p.1 =
              ([("dim_a", exDF), ("dim_b", emptyDF)].getD j ("", emptyDF)).1)) =
          some ([("dim_a", exDF), ("dim_b", emptyDF)].getD j ("", emptyDF))) :=
  ⟨(claim_C5_deploy_errors ⟨true, none, []⟩ exDF []).1 "connection failed" rfl,
   (claim_C5_deploy_errors ⟨false, some 1, []⟩ exDF
      [("dim_a", exDF), ("dim_b", emptyDF)]).2 1 rfl rfl (by decide) (by decide)⟩

/-- C6: the post-hoc verification does not query the fact table under the
name it was written with: the fact table is written as
`loans_fact_yourname` but verified as `loans_fact`, so after a successful
run against an empty store the verification row-count query raises and
the deployment reports failure even though every write succeeded. -/
theorem claim_C6_verify_name_mismatch :
    deploy_to_database ⟨false, none, []⟩ exDF [] =
      (false, [("loans_fact_yourname", exDF)]) ∧
    (deployBody ⟨false, none, []⟩ exDF []).1 =
      Except.error "Invalid object name loans_fact" ∧
    countRows [("loans_fact_yourname", exDF)] "loans_fact" =
      Except.error "Invalid object name loans_fact" ∧
    countRows [("loans_fact_yourname", exDF)] "loans_fact_yourname" = Except.ok 3 ∧
    "loans_fact_yourname" ≠ "loans_fact" := by
  refine ⟨rfl, rfl, rfl, rfl, by decide⟩

theorem readH_append_lt (h : List DataFrame) (d : DataFrame) (i : Nat)
    (hi : i < h.length) : readH (h ++ [d]) i = readH h i :=
  getD_append_lt h [d] i emptyDF hi

theorem readH_writeH_ne (h : List DataFrame) (i j : Nat) (d : DataFrame) (hij : i ≠ j) :
    readH (writeH h j d) i = readH h i :=
  getD_set_ne h i j d emptyDF hij

theorem writeH_length (h : List DataFrame) (j : Nat) (d : DataFrame) :
    (writeH h j d).length = h.length := by
  simp [writeH]

theorem addDimH_length_le (df : DataFrame) (fh : Nat)
    (st : List DataFrame × List (String × Nat)) (c cid nm : String) (b : Bool) :
    st.1.length ≤ (addDimensionH df fh st c cid nm b).1.length := by
  unfold addDimensionH
  by_cases h : c ∈ df.cols
  · rw [if_pos h]
    simp only [allocH, writeH, List.length_set, List.length_append]
    omega
  · rw [if_neg h]

theorem addDimH_read_lt (df : DataFrame) (fh : Nat)
    (st : List DataFrame × List (String × Nat)) (c cid nm : String) (b : Bool)
    (i : Nat) (hi : i < st.1.length) (hifh : i ≠ fh) :
    readH (addDimensionH df fh st c cid nm b).1 i = readH st.1 i := by
  unfold addDimensionH
  by_cases h : c ∈ df.cols
  · rw [if_pos h]
    simp only [allocH]
    rw [readH_writeH_ne _ _ _ _ hifh, readH_append_lt _ _ _ hi]
  · rw [if_neg h]

theorem addDimH_dims (df : DataFrame) (fh : Nat)
    (st : List DataFrame × List (String × Nat)) (c cid nm : String) (b : Bool) :
    ∀ p ∈ (addDimensionH df fh st c cid nm b).2, p ∈ st.2 ∨ p.2 = st.1.length := by
  unfold addDimensionH
  by_cases h : c ∈ df.cols
  · rw [if_pos h]
    intro p hp
    simp only [allocH, List.mem_append, List.mem_singleton] at hp
    rcases hp with hp | hp
    · exact Or.inl hp
    · right
      rw [hp]
  · rw [if_neg h]
    intro p hp
    exact Or.inl hp

/-- C9: `create_star_schema` does not mutate its argument: every object
that existed before the call — in particular the input table — is
unchanged in the final heap, and the returned fact table and dimension
tables are freshly allocated objects. -/
theorem claim_C9_no_mutation (heap0 : List DataFrame) (dfh : Nat)
    (hdfh : dfh < heap0.length) :
    (∀ i, i < heap0.length →
      readH (create_star_schema_heap heap0 dfh).2 i = readH heap0 i) ∧
    heap0.length ≤ (create_star_schema_heap heap0 dfh).1.1 ∧
    (∀ p ∈ (create_star_schema_heap heap0 dfh).1.2, heap0.length ≤ p.2) ∧
    readH (create_star_schema_heap heap0 dfh).2 dfh = readH heap0 dfh := by
  set df0 := readH heap0 dfh with hdf0
  set st1 := addDimensionH df0 heap0.length (heap0 ++ [df0], []) "home_ownership"
    "home_ownership_id" "home_ownership_dim_yourname" false with hst1
  set st2 := addDimensionH df0 heap0.length st1 "loan_status" "loan_status_id"
    "loan_status_dim_yourname" false with hst2
  set st3 := addDimensionH df0 heap0.length st2 "issue_d" "issue_d_id"
    "issue_d_dim_yourname" true with hst3
  have hshape : ∃ x y, create_star_schema_heap heap0 dfh =
      ((st3.1.length, st3.2), writeH (st3.1 ++ [x]) st3.1.length y) := ⟨_, _, rfl⟩
  obtain ⟨x, y, heq⟩ := hshape
  have hlen0 : heap0.length + 1 = (heap0 ++ [df0]).length := by simp
  have hlen1 : heap0.length + 1 ≤ st1.1.length := by
    rw [hst1]
    rw [hlen0]
    exact addDimH_length_le df0 heap0.length (heap0 ++ [df0], []) _ _ _ _
  have hlen2 : heap0.length + 1 ≤ st2.1.length := by
    rw [hst2]
    exact le_trans hlen1 (addDimH_length_le df0 heap0.length st1 _ _ _ _)
  have hlen3 : heap0.length + 1 ≤ st3.1.length := by
    rw [hst3]
    exact le_trans hlen2 (addDimH_length_le df0 heap0.length st2 _ _ _ _)
  have hframe : ∀ i, i < heap0.length →
      readH (create_star_schema_heap heap0 dfh).2 i = readH heap0 i := by
    intro i hi
    rw [heq]
    simp only []
    rw [readH_writeH_ne _ _ _ _ (by omega)]
    rw [readH_append_lt _ _ _ (by omega)]
    rw [hst3, addDimH_read_lt df0 heap0.length st2 _ _ _ _ i (by omega) (by omega)]
    rw [hst2, addDimH_read_lt df0 heap0.length st1 _ _ _ _ i (by omega) (by omega)]
    rw [hst1, addDimH_read_lt df0 heap0.length (heap0 ++ [df0], []) _ _ _ _ i
      (by simp; omega) (by omega)]
    exact readH_append_lt heap0 df0 i hi
  refine ⟨hframe, ?_, ?_, hframe dfh hdfh⟩
  · rw [heq]
    simp only []
    omega
  · intro p hp
    rw [heq] at hp
    simp only [] at hp
    have hp3 := addDimH_dims df0 heap0.length st2 "issue_d" "issue_d_id"
      "issue_d_dim_yourname" true p (by rw [← hst3]; exact hp)
    rcases hp3 with hp3 | hp3
    · have hp2 := addDimH_dims df0 heap0.length st1 "loan_status" "loan_status_id"
        "loan_status_dim_yourname" false p (by rw [← hst2]; exact hp3)
      rcases hp2 with hp2 | hp2
      · have hp1 := addDimH_dims df0 heap0.length (heap0 ++ [df0], []) "home_ownership"
          "home_ownership_id" "home_ownership_dim_yourname" false p
          (by rw [← hst1]; exact hp2)
        rcases hp1 with hp1 | hp1
        · simp at hp1
        · rw [hp1]
          simp
      · rw [hp2]
        omega
    · rw [hp3]
      omega

/-- Witness for C9 at a one-object heap holding the worked example. -/
theorem claim_C9_no_mutation_witness :
    (∀ i, i < [exDF].length →
      readH (create_star_schema_heap [exDF] 0).2 i = readH [exDF] i) ∧
    [exDF].length ≤ (create_star_schema_heap [exDF] 0).1.1 ∧
    (∀ p ∈ (create_star_schema_heap [exDF] 0).1.2, [exDF].length ≤ p.2) ∧
    readH (create_star_schema_heap [exDF] 0).2 0 = readH [exDF] 0 :=
  claim_C9_no_mutation [exDF] 0 (by decide)
